import Mathlib

/-!
Shallow embedding of `vnext/Microsoft.ReactNative/Utils/PropertyUtils.h`
(react-native-windows property-application layer).

Doubles are modelled as rationals; the per-edge / per-corner raw arrays are
9-field records indexed by the `ShadowEdges` / `ShadowCorners` enumerations;
the undefined sentinel `c_UndefinedEdge` is a distinguished numeric value.
Stateful updates to the XAML element and the shadow node are modelled as
explicit state passing: each `TryUpdate...` dispatcher returns the new state
together with its `handled` boolean.
-/

namespace ReactUwp

/-- Modelled from the spec: `c_UndefinedEdge`, the reserved sentinel meaning
"no explicit override at this slot".  Its declaration lives in
`Views/ShadowNodeBase.h`, outside the examined sources; the spec records that
it is a reserved numeric value distinct from 0, and the resolver's
`max(0, allEdges)` fallback to 0 for an undefined AllEdges slot pins it below
zero.  We use -1. -/
def c_UndefinedEdge : ℚ := -1

/-- Edge slots, in the order of the `ShadowEdges` enumeration. -/
inductive ShadowEdges where
  | Left | Top | Right | Bottom | Start | End | Horizontal | Vertical | AllEdges
deriving DecidableEq

/-- Corner slots, in the order of the `ShadowCorners` enumeration. -/
inductive ShadowCorners where
  | TopLeft | TopRight | BottomLeft | BottomRight
  | TopStart | TopEnd | BottomStart | BottomEnd | AllCorners
deriving DecidableEq

/-- The raw 9-slot edge value array (`double[CountEdges]`). -/
structure EdgeValues where
  left : ℚ
  top : ℚ
  right : ℚ
  bottom : ℚ
  start : ℚ
  end_ : ℚ
  horizontal : ℚ
  vertical : ℚ
  allEdges : ℚ
deriving DecidableEq

/-- Array indexing `thicknesses[(int)edge]`. -/
def EdgeValues.get (t : EdgeValues) : ShadowEdges → ℚ
  | .Left => t.left
  | .Top => t.top
  | .Right => t.right
  | .Bottom => t.bottom
  | .Start => t.start
  | .End => t.end_
  | .Horizontal => t.horizontal
  | .Vertical => t.vertical
  | .AllEdges => t.allEdges

/-- Array slot assignment `thicknesses[(int)edge] = v`. -/
def EdgeValues.set (t : EdgeValues) : ShadowEdges → ℚ → EdgeValues
  | .Left, v => { t with left := v }
  | .Top, v => { t with top := v }
  | .Right, v => { t with right := v }
  | .Bottom, v => { t with bottom := v }
  | .Start, v => { t with start := v }
  | .End, v => { t with end_ := v }
  | .Horizontal, v => { t with horizontal := v }
  | .Vertical, v => { t with vertical := v }
  | .AllEdges, v => { t with allEdges := v }

/-- The raw 9-slot corner radius array (`double[CountCorners]`). -/
structure CornerValues where
  topLeft : ℚ
  topRight : ℚ
  bottomLeft : ℚ
  bottomRight : ℚ
  topStart : ℚ
  topEnd : ℚ
  bottomStart : ℚ
  bottomEnd : ℚ
  allCorners : ℚ
deriving DecidableEq

/-- Array indexing `cornerRadii[(int)corner]`. -/
def CornerValues.get (c : CornerValues) : ShadowCorners → ℚ
  | .TopLeft => c.topLeft
  | .TopRight => c.topRight
  | .BottomLeft => c.bottomLeft
  | .BottomRight => c.bottomRight
  | .TopStart => c.topStart
  | .TopEnd => c.topEnd
  | .BottomStart => c.bottomStart
  | .BottomEnd => c.bottomEnd
  | .AllCorners => c.allCorners

/-- Array slot assignment `cornerRadii[(int)corner] = v`. -/
def CornerValues.set (c : CornerValues) : ShadowCorners → ℚ → CornerValues
  | .TopLeft, v => { c with topLeft := v }
  | .TopRight, v => { c with topRight := v }
  | .BottomLeft, v => { c with bottomLeft := v }
  | .BottomRight, v => { c with bottomRight := v }
  | .TopStart, v => { c with topStart := v }
  | .TopEnd, v => { c with topEnd := v }
  | .BottomStart, v => { c with bottomStart := v }
  | .BottomEnd, v => { c with bottomEnd := v }
  | .AllCorners, v => { c with allCorners := v }

/-- The resolved four-sided structure `xaml::Thickness`. -/
structure Thickness where
  Left : ℚ
  Top : ℚ
  Right : ℚ
  Bottom : ℚ
deriving DecidableEq

/-- The resolved four-corner structure `xaml::CornerRadius`. -/
structure CornerRadius where
  TopLeft : ℚ
  TopRight : ℚ
  BottomLeft : ℚ
  BottomRight : ℚ
deriving DecidableEq

/-- Source: `DefaultOrOverride(defaultValue, x) = x != c_UndefinedEdge ? x : defaultValue`. -/
def DefaultOrOverride (defaultValue x : ℚ) : ℚ :=
  if x ≠ c_UndefinedEdge then x else defaultValue

/-- Resolver `GetThickness`: resolve a 9-slot edge array into a `Thickness`, filling
from broad to narrow exactly as the source does. -/
def GetThickness (t : EdgeValues) : Thickness :=
  let defaultWidth : ℚ := max 0 (t.get .AllEdges)
  let startWidth : ℚ := DefaultOrOverride (t.get .Left) (t.get .Start)
  let endWidth : ℚ := DefaultOrOverride (t.get .Right) (t.get .End)
  let th0 : Thickness := ⟨defaultWidth, defaultWidth, defaultWidth, defaultWidth⟩
  let th1 : Thickness :=
    if t.get .Horizontal ≠ c_UndefinedEdge then
      { th0 with Left := t.get .Horizontal, Right := t.get .Horizontal }
    else th0
  let th2 : Thickness :=
    if t.get .Vertical ≠ c_UndefinedEdge then
      { th1 with Top := t.get .Vertical, Bottom := t.get .Vertical }
    else th1
  let th3 : Thickness := if startWidth ≠ c_UndefinedEdge then { th2 with Left := startWidth } else th2
  let th4 : Thickness := if endWidth ≠ c_UndefinedEdge then { th3 with Right := endWidth } else th3
  let th5 : Thickness :=
    if t.get .Top ≠ c_UndefinedEdge then { th4 with Top := t.get .Top } else th4
  let th6 : Thickness :=
    if t.get .Bottom ≠ c_UndefinedEdge then { th5 with Bottom := t.get .Bottom } else th5
  th6

/-- Resolver `GetCornerRadius`: resolve a 9-slot corner array into a `CornerRadius`. -/
def GetCornerRadius (c : CornerValues) : CornerRadius :=
  let defaultRadius : ℚ := max 0 (c.get .AllCorners)
  let topStartRadius : ℚ := DefaultOrOverride (c.get .TopLeft) (c.get .TopStart)
  let topEndRadius : ℚ := DefaultOrOverride (c.get .TopRight) (c.get .TopEnd)
  let bottomStartRadius : ℚ := DefaultOrOverride (c.get .BottomLeft) (c.get .BottomStart)
  let bottomEndRadius : ℚ := DefaultOrOverride (c.get .BottomRight) (c.get .BottomEnd)
  { TopLeft := DefaultOrOverride defaultRadius topStartRadius
    TopRight := DefaultOrOverride defaultRadius topEndRadius
    BottomLeft := DefaultOrOverride defaultRadius bottomStartRadius
    BottomRight := DefaultOrOverride defaultRadius bottomEndRadius }

/-- The all-sentinel edge array (every slot undefined). -/
def EdgeValues.undef : EdgeValues :=
  ⟨c_UndefinedEdge, c_UndefinedEdge, c_UndefinedEdge, c_UndefinedEdge, c_UndefinedEdge,
   c_UndefinedEdge, c_UndefinedEdge, c_UndefinedEdge, c_UndefinedEdge⟩

/-- The all-sentinel corner array (every slot undefined). -/
def CornerValues.undef : CornerValues :=
  ⟨c_UndefinedEdge, c_UndefinedEdge, c_UndefinedEdge, c_UndefinedEdge, c_UndefinedEdge,
   c_UndefinedEdge, c_UndefinedEdge, c_UndefinedEdge, c_UndefinedEdge⟩

/-- A slot of a raw array is well formed when it is either the undefined
sentinel or a non-negative width, per the data model. -/
abbrev SlotOk (x : ℚ) : Prop := x = c_UndefinedEdge ∨ 0 ≤ x

/-- All nine slots of an edge array are well formed. -/
abbrev EdgesOk (t : EdgeValues) : Prop :=
  SlotOk t.left ∧ SlotOk t.top ∧ SlotOk t.right ∧ SlotOk t.bottom ∧ SlotOk t.start ∧
    SlotOk t.end_ ∧ SlotOk t.horizontal ∧ SlotOk t.vertical ∧ SlotOk t.allEdges

/-- All nine slots of a corner array are well formed. -/
abbrev CornersOk (c : CornerValues) : Prop :=
  SlotOk c.topLeft ∧ SlotOk c.topRight ∧ SlotOk c.bottomLeft ∧ SlotOk c.bottomRight ∧
    SlotOk c.topStart ∧ SlotOk c.topEnd ∧ SlotOk c.bottomStart ∧ SlotOk c.bottomEnd ∧
    SlotOk c.allCorners

theorem DefaultOrOverride_of_def {x : ℚ} (d : ℚ) (h : x ≠ c_UndefinedEdge) :
    DefaultOrOverride d x = x := by
  simp [DefaultOrOverride, h]

theorem DefaultOrOverride_of_undef (d : ℚ) :
    DefaultOrOverride d c_UndefinedEdge = d := by
  simp [DefaultOrOverride]

theorem GetThickness_Left (t : EdgeValues) :
    (GetThickness t).Left =
      if DefaultOrOverride t.left t.start ≠ c_UndefinedEdge then DefaultOrOverride t.left t.start
      else if t.horizontal ≠ c_UndefinedEdge then t.horizontal
      else max 0 t.allEdges := by
  unfold GetThickness
  dsimp only [EdgeValues.get]
  split_ifs <;> simp_all

theorem GetThickness_Right (t : EdgeValues) :
    (GetThickness t).Right =
      if DefaultOrOverride t.right t.end_ ≠ c_UndefinedEdge then DefaultOrOverride t.right t.end_
      else if t.horizontal ≠ c_UndefinedEdge then t.horizontal
      else max 0 t.allEdges := by
  unfold GetThickness
  dsimp only [EdgeValues.get]
  split_ifs <;> simp_all

theorem GetThickness_Top (t : EdgeValues) :
    (GetThickness t).Top =
      if t.top ≠ c_UndefinedEdge then t.top
      else if t.vertical ≠ c_UndefinedEdge then t.vertical
      else max 0 t.allEdges := by
  unfold GetThickness
  dsimp only [EdgeValues.get]
  split_ifs <;> simp_all

theorem GetThickness_Bottom (t : EdgeValues) :
    (GetThickness t).Bottom =
      if t.bottom ≠ c_UndefinedEdge then t.bottom
      else if t.vertical ≠ c_UndefinedEdge then t.vertical
      else max 0 t.allEdges := by
  unfold GetThickness
  dsimp only [EdgeValues.get]
  split_ifs <;> simp_all

theorem GetCornerRadius_fields (c : CornerValues) :
    (GetCornerRadius c).TopLeft =
        DefaultOrOverride (max 0 c.allCorners) (DefaultOrOverride c.topLeft c.topStart) ∧
      (GetCornerRadius c).TopRight =
        DefaultOrOverride (max 0 c.allCorners) (DefaultOrOverride c.topRight c.topEnd) ∧
      (GetCornerRadius c).BottomLeft =
        DefaultOrOverride (max 0 c.allCorners) (DefaultOrOverride c.bottomLeft c.bottomStart) ∧
      (GetCornerRadius c).BottomRight =
        DefaultOrOverride (max 0 c.allCorners) (DefaultOrOverride c.bottomRight c.bottomEnd) := by
  exact ⟨rfl, rfl, rfl, rfl⟩

/-- Edge array with `Left = 1`, `Start = 2`, all other slots undefined. -/
def edgesLeftStart : EdgeValues := { EdgeValues.undef with left := 1, start := 2 }

/-- Corner array with `TopLeft = 1`, `TopStart = 2`, all other slots undefined. -/
def cornersTopLeftTopStart : CornerValues :=
  { CornerValues.undef with topLeft := 1, topStart := 2 }

/-- C1 counterexample: with `Left = 1` and `Start = 2` both defined, `GetThickness`
resolves the left field to the Start slot's value 2, not the Left slot's value 1;
likewise with `TopLeft = 1` and `TopStart = 2` both defined, `GetCornerRadius`
resolves the top-left corner to 2, not 1.  The physical slot does not override the
logical one. -/
theorem C1_physical_precedence_cex :
    edgesLeftStart.left ≠ c_UndefinedEdge ∧ edgesLeftStart.start ≠ c_UndefinedEdge ∧
      (GetThickness edgesLeftStart).Left = 2 ∧
      (GetThickness edgesLeftStart).Left ≠ edgesLeftStart.left ∧
      cornersTopLeftTopStart.topLeft ≠ c_UndefinedEdge ∧
      cornersTopLeftTopStart.topStart ≠ c_UndefinedEdge ∧
      (GetCornerRadius cornersTopLeftTopStart).TopLeft = 2 ∧
      (GetCornerRadius cornersTopLeftTopStart).TopLeft ≠ cornersTopLeftTopStart.topLeft := by
  decide

/-- C1 (amended): a defined logical slot overrides its matching physical slot.
For every edge array in which both the Left and Start slots are defined,
`GetThickness` resolves the left field to the Start slot's value (and symmetrically
End over Right); for every corner array in which both a physical corner slot and
its logical counterpart are defined, `GetCornerRadius` resolves that corner to the
logical slot's value. -/
theorem C1_logical_overrides_physical (t : EdgeValues) (c : CornerValues) :
    (t.left ≠ c_UndefinedEdge → t.start ≠ c_UndefinedEdge →
        (GetThickness t).Left = t.start) ∧
      (t.right ≠ c_UndefinedEdge → t.end_ ≠ c_UndefinedEdge →
        (GetThickness t).Right = t.end_) ∧
      (c.topLeft ≠ c_UndefinedEdge → c.topStart ≠ c_UndefinedEdge →
        (GetCornerRadius c).TopLeft = c.topStart) ∧
      (c.topRight ≠ c_UndefinedEdge → c.topEnd ≠ c_UndefinedEdge →
        (GetCornerRadius c).TopRight = c.topEnd) ∧
      (c.bottomLeft ≠ c_UndefinedEdge → c.bottomStart ≠ c_UndefinedEdge →
        (GetCornerRadius c).BottomLeft = c.bottomStart) ∧
      (c.bottomRight ≠ c_UndefinedEdge → c.bottomEnd ≠ c_UndefinedEdge →
        (GetCornerRadius c).BottomRight = c.bottomEnd) := by
  obtain ⟨h1, h2, h3, h4⟩ := GetCornerRadius_fields c
  refine ⟨?_, ?_, ?_, ?_, ?_, ?_⟩ <;> intro ha hb
  · rw [GetThickness_Left, DefaultOrOverride_of_def _ hb, if_pos hb]
  · rw [GetThickness_Right, DefaultOrOverride_of_def _ hb, if_pos hb]
  · rw [h1, DefaultOrOverride_of_def _ hb, DefaultOrOverride_of_def _ hb]
  · rw [h2, DefaultOrOverride_of_def _ hb, DefaultOrOverride_of_def _ hb]
  · rw [h3, DefaultOrOverride_of_def _ hb, DefaultOrOverride_of_def _ hb]
  · rw [h4, DefaultOrOverride_of_def _ hb, DefaultOrOverride_of_def _ hb]

/-- Witness for the amended C1 at the concrete arrays with value 1 in the physical
slots and 2 in the logical slots. -/
theorem C1_logical_overrides_physical_witness :
    (GetThickness edgesLeftStart).Left = edgesLeftStart.start ∧
      (GetCornerRadius cornersTopLeftTopStart).TopLeft = cornersTopLeftTopStart.topStart := by
  have h := C1_logical_overrides_physical edgesLeftStart cornersTopLeftTopStart
  exact ⟨h.1 (by decide) (by decide), h.2.2.1 (by decide) (by decide)⟩

theorem SlotOk.nonneg {x : ℚ} (h : SlotOk x) (hne : x ≠ c_UndefinedEdge) : 0 ≤ x :=
  h.resolve_left hne

theorem nonneg_ne_sentinel {x : ℚ} (h : 0 ≤ x) : x ≠ c_UndefinedEdge := by
  intro heq
  rw [heq] at h
  norm_num [c_UndefinedEdge] at h

theorem SlotOk_DefaultOrOverride {d x : ℚ} (hd : SlotOk d) (hx : SlotOk x) :
    SlotOk (DefaultOrOverride d x) := by
  unfold DefaultOrOverride
  split_ifs with h
  · exact Or.inr (hx.nonneg h)
  · exact hd

theorem cascade_nonneg {p q r : ℚ} (hp : SlotOk p) (hq : SlotOk q) :
    0 ≤ if p ≠ c_UndefinedEdge then p else if q ≠ c_UndefinedEdge then q else max 0 r := by
  split_ifs with h1 h2
  · exact hp.nonneg h1
  · exact hq.nonneg h2
  · exact le_max_left 0 r

theorem DefaultOrOverride_nonneg {d x : ℚ} (hd : 0 ≤ d) (hx : SlotOk x) :
    0 ≤ DefaultOrOverride d x := by
  unfold DefaultOrOverride
  split_ifs with h
  · exact hx.nonneg h
  · exact hd

theorem max0_of_slot (x : ℚ) :
    max 0 x = if x = c_UndefinedEdge then 0 else max 0 x := by
  split_ifs with h
  · rw [h]
    norm_num [c_UndefinedEdge]
  · rfl

/-- C2: for every well-formed edge array and corner array (each slot either the
undefined sentinel or non-negative), every field of the resolved `Thickness` and
`CornerRadius` is non-negative and is never the sentinel; and a fully unresolved
slot falls back to 0 when the AllEdges/AllCorners slot is undefined, and to that
slot's clamped non-negative value otherwise. -/
theorem C2_resolved_nonneg (t : EdgeValues) (c : CornerValues)
    (ht : EdgesOk t) (hc : CornersOk c) :
    (0 ≤ (GetThickness t).Left ∧ (GetThickness t).Left ≠ c_UndefinedEdge) ∧
      (0 ≤ (GetThickness t).Top ∧ (GetThickness t).Top ≠ c_UndefinedEdge) ∧
      (0 ≤ (GetThickness t).Right ∧ (GetThickness t).Right ≠ c_UndefinedEdge) ∧
      (0 ≤ (GetThickness t).Bottom ∧ (GetThickness t).Bottom ≠ c_UndefinedEdge) ∧
      (0 ≤ (GetCornerRadius c).TopLeft ∧ (GetCornerRadius c).TopLeft ≠ c_UndefinedEdge) ∧
      (0 ≤ (GetCornerRadius c).TopRight ∧ (GetCornerRadius c).TopRight ≠ c_UndefinedEdge) ∧
      (0 ≤ (GetCornerRadius c).BottomLeft ∧ (GetCornerRadius c).BottomLeft ≠ c_UndefinedEdge) ∧
      (0 ≤ (GetCornerRadius c).BottomRight ∧ (GetCornerRadius c).BottomRight ≠ c_UndefinedEdge) ∧
      (t.left = c_UndefinedEdge → t.start = c_UndefinedEdge → t.horizontal = c_UndefinedEdge →
        (GetThickness t).Left = if t.allEdges = c_UndefinedEdge then 0 else max 0 t.allEdges) ∧
      (t.right = c_UndefinedEdge → t.end_ = c_UndefinedEdge → t.horizontal = c_UndefinedEdge →
        (GetThickness t).Right = if t.allEdges = c_UndefinedEdge then 0 else max 0 t.allEdges) ∧
      (t.top = c_UndefinedEdge → t.vertical = c_UndefinedEdge →
        (GetThickness t).Top = if t.allEdges = c_UndefinedEdge then 0 else max 0 t.allEdges) ∧
      (t.bottom = c_UndefinedEdge → t.vertical = c_UndefinedEdge →
        (GetThickness t).Bottom = if t.allEdges = c_UndefinedEdge then 0 else max 0 t.allEdges) ∧
      (c.topLeft = c_UndefinedEdge → c.topStart = c_UndefinedEdge →
        (GetCornerRadius c).TopLeft =
          if c.allCorners = c_UndefinedEdge then 0 else max 0 c.allCorners) ∧
      (c.topRight = c_UndefinedEdge → c.topEnd = c_UndefinedEdge →
        (GetCornerRadius c).TopRight =
          if c.allCorners = c_UndefinedEdge then 0 else max 0 c.allCorners) ∧
      (c.bottomLeft = c_UndefinedEdge → c.bottomStart = c_UndefinedEdge →
        (GetCornerRadius c).BottomLeft =
          if c.allCorners = c_UndefinedEdge then 0 else max 0 c.allCorners) ∧
      (c.bottomRight = c_UndefinedEdge → c.bottomEnd = c_UndefinedEdge →
        (GetCornerRadius c).BottomRight =
          if c.allCorners = c_UndefinedEdge then 0 else max 0 c.allCorners) := by
  obtain ⟨hl, htp, hr, hb, hs, he, hh, hv, ha⟩ := ht
  obtain ⟨ctl, ctr, cbl, cbr, cts, cte, cbs, cbe, cac⟩ := hc
  obtain ⟨f1, f2, f3, f4⟩ := GetCornerRadius_fields c
  have hmaxa : (0 : ℚ) ≤ max 0 c.allCorners := le_max_left 0 c.allCorners
  have nnL : 0 ≤ (GetThickness t).Left := by
    rw [GetThickness_Left]
    exact cascade_nonneg (SlotOk_DefaultOrOverride hl hs) hh
  have nnR : 0 ≤ (GetThickness t).Right := by
    rw [GetThickness_Right]
    exact cascade_nonneg (SlotOk_DefaultOrOverride hr he) hh
  have nnT : 0 ≤ (GetThickness t).Top := by
    rw [GetThickness_Top]
    exact cascade_nonneg htp hv
  have nnB : 0 ≤ (GetThickness t).Bottom := by
    rw [GetThickness_Bottom]
    exact cascade_nonneg hb hv
  have nnTL : 0 ≤ (GetCornerRadius c).TopLeft := by
    rw [f1]
    exact DefaultOrOverride_nonneg hmaxa (SlotOk_DefaultOrOverride ctl cts)
  have nnTR : 0 ≤ (GetCornerRadius c).TopRight := by
    rw [f2]
    exact DefaultOrOverride_nonneg hmaxa (SlotOk_DefaultOrOverride ctr cte)
  have nnBL : 0 ≤ (GetCornerRadius c).BottomLeft := by
    rw [f3]
    exact DefaultOrOverride_nonneg hmaxa (SlotOk_DefaultOrOverride cbl cbs)
  have nnBR : 0 ≤ (GetCornerRadius c).BottomRight := by
    rw [f4]
    exact DefaultOrOverride_nonneg hmaxa (SlotOk_DefaultOrOverride cbr cbe)
  refine ⟨⟨nnL, nonneg_ne_sentinel nnL⟩, ⟨nnT, nonneg_ne_sentinel nnT⟩,
    ⟨nnR, nonneg_ne_sentinel nnR⟩, ⟨nnB, nonneg_ne_sentinel nnB⟩,
    ⟨nnTL, nonneg_ne_sentinel nnTL⟩, ⟨nnTR, nonneg_ne_sentinel nnTR⟩,
    ⟨nnBL, nonneg_ne_sentinel nnBL⟩, ⟨nnBR, nonneg_ne_sentinel nnBR⟩,
    ?_, ?_, ?_, ?_, ?_, ?_, ?_, ?_⟩
  · intro u1 u2 u3
    rw [GetThickness_Left, u1, u2, u3, DefaultOrOverride_of_undef]
    simp [← max0_of_slot t.allEdges]
  · intro u1 u2 u3
    rw [GetThickness_Right, u1, u2, u3, DefaultOrOverride_of_undef]
    simp [← max0_of_slot t.allEdges]
  · intro u1 u2
    rw [GetThickness_Top, u1, u2]
    simp [← max0_of_slot t.allEdges]
  · intro u1 u2
    rw [GetThickness_Bottom, u1, u2]
    simp [← max0_of_slot t.allEdges]
  · intro u1 u2
    rw [f1, u1, u2, DefaultOrOverride_of_undef, DefaultOrOverride_of_undef]
    exact max0_of_slot c.allCorners
  · intro u1 u2
    rw [f2, u1, u2, DefaultOrOverride_of_undef, DefaultOrOverride_of_undef]
    exact max0_of_slot c.allCorners
  · intro u1 u2
    rw [f3, u1, u2, DefaultOrOverride_of_undef, DefaultOrOverride_of_undef]
    exact max0_of_slot c.allCorners
  · intro u1 u2
    rw [f4, u1, u2, DefaultOrOverride_of_undef, DefaultOrOverride_of_undef]
    exact max0_of_slot c.allCorners

/-- A mixed sample edge array used to witness the invariant. -/
def edgesSample : EdgeValues := { EdgeValues.undef with top := 4, horizontal := 7 }

/-- A mixed sample corner array used to witness the invariant. -/
def cornersSample : CornerValues := { CornerValues.undef with bottomEnd := 3, allCorners := 1 }

/-- Witness for C2 at concrete mixed arrays. -/
theorem C2_resolved_nonneg_witness :
    0 ≤ (GetThickness edgesSample).Left ∧ (GetThickness edgesSample).Left ≠ c_UndefinedEdge ∧
      0 ≤ (GetCornerRadius cornersSample).BottomRight ∧
      (GetCornerRadius cornersSample).BottomRight ≠ c_UndefinedEdge := by
  have h := C2_resolved_nonneg edgesSample cornersSample (by decide) (by decide)
  exact ⟨h.1.1, h.1.2, h.2.2.2.2.2.2.2.1.1, h.2.2.2.2.2.2.2.1.2⟩

/-- C3: when only the AllEdges slot is defined, with value v ≥ 0, `GetThickness`
returns the uniform thickness (v, v, v, v). -/
theorem C3_all_edges_uniform (v : ℚ) (hv : 0 ≤ v) :
    GetThickness { EdgeValues.undef with allEdges := v } = ⟨v, v, v, v⟩ := by
  simp [GetThickness, EdgeValues.undef, EdgeValues.get, DefaultOrOverride, c_UndefinedEdge,
    max_eq_right hv]

/-- Witness for C3 at v = 3. -/
theorem C3_all_edges_uniform_witness :
    GetThickness { EdgeValues.undef with allEdges := 3 } = ⟨3, 3, 3, 3⟩ :=
  C3_all_edges_uniform 3 (by norm_num)

/-- Corner array with `BottomRight = 5`, `AllCorners = 2`, all other slots
undefined. -/
def cornersBottomRight : CornerValues :=
  { CornerValues.undef with bottomRight := 5, allCorners := 2 }

/-- C4: with the BottomRight slot 5, the AllCorners slot 2 and all other slots
undefined, `GetCornerRadius` returns topLeft 2, topRight 2, bottomLeft 2,
bottomRight 5. -/
theorem C4_corner_example : GetCornerRadius cornersBottomRight = ⟨2, 2, 2, 5⟩ := by
  decide

/-- A dynamically typed property value (`folly::dynamic`), restricted to the
variants the property-application layer receives: number, string, boolean,
null. -/
inductive Dynamic where
  | null
  | num (q : ℚ)
  | str (s : String)
  | boolean (b : Bool)
deriving DecidableEq

def Dynamic.isNull : Dynamic → Bool
  | .null => true
  | _ => false

def Dynamic.isNumber : Dynamic → Bool
  | .num _ => true
  | _ => false

def Dynamic.isString : Dynamic → Bool
  | .str _ => true
  | _ => false

/-- Modelled from the spec: truthiness of a dynamic value, as used by the
mouse-event flags ("true only if value present, non-null, and truthy");
`folly::dynamic::asBool` itself is outside the examined sources. -/
def Dynamic.asBool : Dynamic → Bool
  | .null => false
  | .num q => q ≠ 0
  | .str s => s = "true"
  | .boolean b => b

/-- Numeric accessor `asDouble`; per the classifier contract callers branch on
`isNumber` first, so the junk value for other variants is never observed. -/
def Dynamic.asDouble : Dynamic → ℚ
  | .num q => q
  | _ => 0

/-- String accessor `getString`; same caller-side contract as `asDouble`. -/
def Dynamic.getString : Dynamic → String
  | .str s => s
  | _ => ""

/-- A XAML brush value.  A brush is either built from a color property value
(`BrushFrom`) or is the process-wide default border brush. -/
inductive Brush where
  | fromValue (v : Dynamic)
  | defaultBorder
deriving DecidableEq

/-- Modelled from the spec: `IsValidColorValue` (declared in
`Utils/ValueUtils.h`, outside the examined sources).  The spec's dispatch
table maps "number→color", so numeric values are the valid color values; a
null value is in particular not a valid color (the dispatchers test it in a
separate branch). -/
def IsValidColorValue (v : Dynamic) : Bool := v.isNumber

/-- Modelled from the spec: `BrushFrom` (declared in `Utils/ValueUtils.h`),
building a toolkit brush from a color property value. -/
def BrushFrom (v : Dynamic) : Brush := .fromValue v

/-- Modelled from the spec:
`DefaultBrushStore::Instance().GetDefaultBorderBrush()`, the process-wide
default border brush singleton. -/
def GetDefaultBorderBrush : Brush := .defaultBorder

/-- A `winrt::Windows::UI::Text::FontWeight` value. -/
structure FontWeight where
  Weight : ℕ
deriving DecidableEq

/-- Modelled from the spec: the toolkit constant `FontWeights::Normal()`
(weight 400). -/
def FontWeights.Normal : FontWeight := ⟨400⟩

/-- Modelled from the spec: the toolkit constant `FontWeights::Bold()`
(weight 700). -/
def FontWeights.Bold : FontWeight := ⟨700⟩

/-- A `text::FontStyle` value. -/
inductive FontStyle where
  | Normal
  | Italic
deriving DecidableEq

/-- A `xaml::TextAlignment` value. -/
inductive TextAlignment where
  | Left
  | Right
  | Center
  | Justify
  | DetectFromContent
deriving DecidableEq

/-- A `xaml::TextTrimming` value. -/
inductive TextTrimming where
  | None
  | Clip
  | CharacterEllipsis
deriving DecidableEq

/-- A `winrt::Windows::UI::Text::TextDecorations` bitmask. -/
structure TextDecorations where
  underline : Bool
  strikethrough : Bool
deriving DecidableEq

/-- A `xaml::FlowDirection` value. -/
inductive FlowDirection where
  | LeftToRight
  | RightToLeft
deriving DecidableEq

/-- A `xaml::Controls::Orientation` value. -/
inductive Orientation where
  | Horizontal
  | Vertical
deriving DecidableEq

/-- The visual state of the target XAML element that the dispatchers mutate.
Settable-and-clearable dependency properties are `Option`s (`none` models the
cleared / toolkit-default state reached through `ClearValue`).  The three
`...ResourceBrush` fields model the Resource Brush Coordinator: they record
the brush-or-none passed to the latest
`UpdateControl{Background,Foreground,Border}ResourceBrushes` refresh. -/
structure Element where
  background : Option Brush
  foreground : Option Brush
  borderBrush : Option Brush
  borderThickness : Thickness
  padding : Thickness
  cornerRadius : CornerRadius
  fontSize : Option ℚ
  fontFamily : Option String
  fontWeight : Option FontWeight
  fontStyle : Option FontStyle
  textAlignment : Option TextAlignment
  textTrimming : Option TextTrimming
  textDecorations : Option TextDecorations
  flowDirection : Option FlowDirection
  characterSpacing : Option Int
  orientation : Option Orientation
  backgroundResourceBrush : Option Brush
  foregroundResourceBrush : Option Brush
  borderResourceBrush : Option Brush
deriving DecidableEq

/-- The per-view shadow-node state the dispatchers read and write: the two
raw edge arrays, the raw corner array and the three mouse-event flags. -/
structure ShadowNodeBase where
  m_padding : EdgeValues
  m_border : EdgeValues
  m_cornerRadius : CornerValues
  m_onMouseEnter : Bool
  m_onMouseLeave : Bool
  m_onMouseMove : Bool
deriving DecidableEq

/-- Modelled from the spec: the coordinator's refresh-background operation;
records the brush-or-none it was handed. -/
def UpdateControlBackgroundResourceBrushes (e : Element) (brush : Option Brush) : Element :=
  { e with backgroundResourceBrush := brush }

/-- Modelled from the spec: the coordinator's refresh-foreground operation. -/
def UpdateControlForegroundResourceBrushes (e : Element) (brush : Option Brush) : Element :=
  { e with foregroundResourceBrush := brush }

/-- Modelled from the spec: the coordinator's refresh-border operation. -/
def UpdateControlBorderResourceBrushes (e : Element) (brush : Option Brush) : Element :=
  { e with borderResourceBrush := brush }

/-- Source: `xaml::ThicknessHelper::FromUniformLength(v)`. -/
def ThicknessFromUniformLength (v : ℚ) : Thickness := ⟨v, v, v, v⟩

/-- Source: the `edgeTypeMap` lookup from border-width property names to edge
slots (`unordered_map::find` returning end for unknown names). -/
def edgeTypeMap (propertyName : String) : Option ShadowEdges :=
  if propertyName = "borderLeftWidth" then some .Left
  else if propertyName = "borderTopWidth" then some .Top
  else if propertyName = "borderRightWidth" then some .Right
  else if propertyName = "borderBottomWidth" then some .Bottom
  else if propertyName = "borderStartWidth" then some .Start
  else if propertyName = "borderEndWidth" then some .End
  else if propertyName = "borderWidth" then some .AllEdges
  else none

/-- Source: `UpdatePadding` — write the edge slot of the node's padding array
and apply the re-resolved thickness to the element. -/
def UpdatePadding (node : ShadowNodeBase) (e : Element) (edge : ShadowEdges) (margin : ℚ) :
    ShadowNodeBase × Element :=
  let node := { node with m_padding := node.m_padding.set edge margin }
  (node, { e with padding := GetThickness node.m_padding })

/-- Source: `SetBorderThickness` — write the edge slot of the node's border
array and apply the re-resolved thickness to the element. -/
def SetBorderThickness (node : ShadowNodeBase) (e : Element) (edge : ShadowEdges) (margin : ℚ) :
    ShadowNodeBase × Element :=
  let node := { node with m_border := node.m_border.set edge margin }
  (node, { e with borderThickness := GetThickness node.m_border })

/-- Source: `UpdateCornerRadiusValueOnNode` — numeric values land in the
corner slot, every other type resets the slot to the sentinel. -/
def UpdateCornerRadiusValueOnNode (node : ShadowNodeBase) (corner : ShadowCorners)
    (propertyValue : Dynamic) : ShadowNodeBase :=
  if propertyValue.isNumber then
    { node with m_cornerRadius := node.m_cornerRadius.set corner propertyValue.asDouble }
  else
    { node with m_cornerRadius := node.m_cornerRadius.set corner c_UndefinedEdge }

/-- Source: `UpdateCornerRadiusOnElement` — apply the resolved corner radius
of the node's corner array to the element. -/
def UpdateCornerRadiusOnElement (node : ShadowNodeBase) (e : Element) : Element :=
  { e with cornerRadius := GetCornerRadius node.m_cornerRadius }

/-- Source: `TryUpdateBackgroundBrush`. -/
def TryUpdateBackgroundBrush (e : Element) (propertyName : String) (propertyValue : Dynamic) :
    Element × Bool :=
  if propertyName = "backgroundColor" then
    if IsValidColorValue propertyValue then
      let brush := BrushFrom propertyValue
      let e := { e with background := some brush }
      (UpdateControlBackgroundResourceBrushes e (some brush), true)
    else if propertyValue.isNull then
      let e := { e with background := none }
      (UpdateControlBackgroundResourceBrushes e none, true)
    else (e, true)
  else (e, false)

/-- Source: `TryUpdateForeground`. -/
def TryUpdateForeground (e : Element) (propertyName : String) (propertyValue : Dynamic) :
    Element × Bool :=
  if propertyName = "color" then
    if IsValidColorValue propertyValue then
      let brush := BrushFrom propertyValue
      let e := { e with foreground := some brush }
      (UpdateControlForegroundResourceBrushes e (some brush), true)
    else if propertyValue.isNull then
      let e := { e with foreground := none }
      (UpdateControlForegroundResourceBrushes e none, true)
    else (e, true)
  else (e, false)

/-- Source: `TryUpdateBorderProperties`. -/
def TryUpdateBorderProperties (node : ShadowNodeBase) (e : Element) (propertyName : String)
    (propertyValue : Dynamic) : ShadowNodeBase × Element × Bool :=
  if propertyName = "borderColor" then
    if IsValidColorValue propertyValue then
      let brush := BrushFrom propertyValue
      let e := { e with borderBrush := some brush }
      (node, UpdateControlBorderResourceBrushes e (some brush), true)
    else if propertyValue.isNull then
      let e :=
        if e.borderThickness ≠ ThicknessFromUniformLength 0 then
          { e with borderBrush := some GetDefaultBorderBrush }
        else
          { e with borderBrush := none }
      (node, UpdateControlBorderResourceBrushes e none, true)
    else (node, e, true)
  else
    match edgeTypeMap propertyName with
    | some edge =>
      if propertyValue.isNumber then
        let r := SetBorderThickness node e edge propertyValue.asDouble
        let node := r.1
        let e := r.2
        let e :=
          if propertyValue.asDouble ≠ 0 ∧ e.borderBrush = none then
            { e with borderBrush := some GetDefaultBorderBrush }
          else e
        (node, e, true)
      else if propertyValue.isNull then
        let r := SetBorderThickness node e edge 0
        (r.1, r.2, true)
      else (node, e, true)
    | none => (node, e, false)

/-- Source: `TryUpdatePadding`. -/
def TryUpdatePadding (node : ShadowNodeBase) (e : Element) (propertyName : String)
    (propertyValue : Dynamic) : ShadowNodeBase × Element × Bool :=
  let applyEdge : ShadowEdges → ShadowNodeBase × Element × Bool := fun edge =>
    if propertyValue.isNumber then
      let r := UpdatePadding node e edge propertyValue.asDouble
      (r.1, r.2, true)
    else (node, e, true)
  if propertyName = "paddingLeft" then applyEdge .Left
  else if propertyName = "paddingTop" then applyEdge .Top
  else if propertyName = "paddingRight" then applyEdge .Right
  else if propertyName = "paddingBottom" then applyEdge .Bottom
  else if propertyName = "paddingStart" then applyEdge .Start
  else if propertyName = "paddingEnd" then applyEdge .End
  else if propertyName = "paddingHorizontal" then applyEdge .Horizontal
  else if propertyName = "paddingVertical" then applyEdge .Vertical
  else if propertyName = "padding" then applyEdge .AllEdges
  else (node, e, false)

/-- Source: `TryUpdateCornerRadiusOnNode` (the element argument is unused by
the source as well; application to the element is a separate step). -/
def TryUpdateCornerRadiusOnNode (node : ShadowNodeBase) (propertyName : String)
    (propertyValue : Dynamic) : ShadowNodeBase × Bool :=
  if propertyName = "borderTopLeftRadius" then
    (UpdateCornerRadiusValueOnNode node .TopLeft propertyValue, true)
  else if propertyName = "borderTopRightRadius" then
    (UpdateCornerRadiusValueOnNode node .TopRight propertyValue, true)
  else if propertyName = "borderTopStartRadius" then
    (UpdateCornerRadiusValueOnNode node .TopStart propertyValue, true)
  else if propertyName = "borderTopEndRadius" then
    (UpdateCornerRadiusValueOnNode node .TopEnd propertyValue, true)
  else if propertyName = "borderBottomRightRadius" then
    (UpdateCornerRadiusValueOnNode node .BottomRight propertyValue, true)
  else if propertyName = "borderBottomLeftRadius" then
    (UpdateCornerRadiusValueOnNode node .BottomLeft propertyValue, true)
  else if propertyName = "borderBottomStartRadius" then
    (UpdateCornerRadiusValueOnNode node .BottomStart propertyValue, true)
  else if propertyName = "borderBottomEndRadius" then
    (UpdateCornerRadiusValueOnNode node .BottomEnd propertyValue, true)
  else if propertyName = "borderRadius" then
    (UpdateCornerRadiusValueOnNode node .AllCorners propertyValue, true)
  else (node, false)

/-- Source: `TryUpdateFontProperties`. -/
def TryUpdateFontProperties (e : Element) (propertyName : String) (propertyValue : Dynamic) :
    Element × Bool :=
  if propertyName = "fontSize" then
    if propertyValue.isNumber then ({ e with fontSize := some propertyValue.asDouble }, true)
    else if propertyValue.isNull then ({ e with fontSize := none }, true)
    else (e, true)
  else if propertyName = "fontFamily" then
    if propertyValue.isString then ({ e with fontFamily := some propertyValue.getString }, true)
    else if propertyValue.isNull then ({ e with fontFamily := none }, true)
    else (e, true)
  else if propertyName = "fontWeight" then
    if propertyValue.isString then
      let value := propertyValue.getString
      let fontWeight : FontWeight :=
        if value = "normal" then FontWeights.Normal
        else if value = "bold" then FontWeights.Bold
        else if value = "100" then ⟨100⟩
        else if value = "200" then ⟨200⟩
        else if value = "300" then ⟨300⟩
        else if value = "400" then ⟨400⟩
        else if value = "500" then ⟨500⟩
        else if value = "600" then ⟨600⟩
        else if value = "700" then ⟨700⟩
        else if value = "800" then ⟨800⟩
        else if value = "900" then ⟨900⟩
        else FontWeights.Normal
      ({ e with fontWeight := some fontWeight }, true)
    else if propertyValue.isNull then ({ e with fontWeight := none }, true)
    else (e, true)
  else if propertyName = "fontStyle" then
    if propertyValue.isString then
      ({ e with fontStyle := some (if propertyValue.getString = "italic" then FontStyle.Italic else FontStyle.Normal) }, true)
    else if propertyValue.isNull then ({ e with fontStyle := none }, true)
    else (e, true)
  else (e, false)

/-- Source: `SetTextAlignment`. -/
def SetTextAlignment (e : Element) (value : String) : Element :=
  if value = "left" then { e with textAlignment := some .Left }
  else if value = "right" then { e with textAlignment := some .Right }
  else if value = "center" then { e with textAlignment := some .Center }
  else if value = "justify" then { e with textAlignment := some .Justify }
  else { e with textAlignment := some .DetectFromContent }

/-- Source: `TryUpdateTextAlignment`. -/
def TryUpdateTextAlignment (e : Element) (propertyName : String) (propertyValue : Dynamic) :
    Element × Bool :=
  if propertyName = "textAlign" then
    if propertyValue.isString then (SetTextAlignment e propertyValue.getString, true)
    else if propertyValue.isNull then ({ e with textAlignment := none }, true)
    else (e, true)
  else (e, false)

/-- Source: `SetTextTrimming`. -/
def SetTextTrimming (e : Element) (value : String) : Element :=
  if value = "clip" then { e with textTrimming := some .Clip }
  else if value = "head" ∨ value = "middle" ∨ value = "tail" then
    { e with textTrimming := some .CharacterEllipsis }
  else { e with textTrimming := some .None }

/-- Source: `TryUpdateTextTrimming`. -/
def TryUpdateTextTrimming (e : Element) (propertyName : String) (propertyValue : Dynamic) :
    Element × Bool :=
  if propertyName = "ellipsizeMode" then
    if propertyValue.isString then (SetTextTrimming e propertyValue.getString, true)
    else if propertyValue.isNull then ({ e with textTrimming := none }, true)
    else (e, true)
  else (e, false)

/-- Source: `TryUpdateTextDecorationLine`.  The once-computed capability flag
`isTextDecorationsSupported` is passed explicitly. -/
def TryUpdateTextDecorationLine (isTextDecorationsSupported : Bool) (e : Element)
    (propertyName : String) (propertyValue : Dynamic) : Element × Bool :=
  if propertyName = "textDecorationLine" then
    if !isTextDecorationsSupported then (e, true)
    else if propertyValue.isString then
      let value := propertyValue.getString
      let decorations : TextDecorations :=
        if value = "none" then ⟨false, false⟩
        else if value = "underline" then ⟨true, false⟩
        else if value = "line-through" then ⟨false, true⟩
        else if value = "underline line-through" then ⟨true, true⟩
        else ⟨false, false⟩
      ({ e with textDecorations := some decorations }, true)
    else if propertyValue.isNull then ({ e with textDecorations := none }, true)
    else (e, true)
  else (e, false)

/-- Source: `SetFlowDirection` ("auto" and "inherit" fall into the clearing
branch). -/
def SetFlowDirection (e : Element) (value : String) : Element :=
  if value = "rtl" then { e with flowDirection := some .RightToLeft }
  else if value = "ltr" then { e with flowDirection := some .LeftToRight }
  else { e with flowDirection := none }

/-- Source: `TryUpdateFlowDirection`. -/
def TryUpdateFlowDirection (e : Element) (propertyName : String) (propertyValue : Dynamic) :
    Element × Bool :=
  if propertyName = "writingDirection" ∨ propertyName = "direction" then
    if propertyValue.isString then (SetFlowDirection e propertyValue.getString, true)
    else if propertyValue.isNull then ({ e with flowDirection := none }, true)
    else (e, true)
  else (e, false)

/-- Source: `static_cast<int32_t>` of a double: truncation toward zero (the
32-bit wrap-around of out-of-range values is not modelled; no claim exercises
it). -/
def castToInt32 (q : ℚ) : Int := q.num.tdiv q.den

/-- Source: `TryUpdateCharacterSpacing`. -/
def TryUpdateCharacterSpacing (e : Element) (propertyName : String) (propertyValue : Dynamic) :
    Element × Bool :=
  if propertyName = "letterSpacing" ∨ propertyName = "characterSpacing" then
    if propertyValue.isNumber then
      ({ e with characterSpacing := some (castToInt32 propertyValue.asDouble) }, true)
    else if propertyValue.isNull then ({ e with characterSpacing := none }, true)
    else (e, true)
  else (e, false)

/-- Source: `TryUpdateOrientation` (the null check precedes the string
check). -/
def TryUpdateOrientation (e : Element) (propertyName : String) (propertyValue : Dynamic) :
    Element × Bool :=
  if propertyName = "orientation" then
    if propertyValue.isNull then ({ e with orientation := none }, true)
    else if propertyValue.isString then
      let valueString := propertyValue.getString
      if valueString = "horizontal" then ({ e with orientation := some .Horizontal }, true)
      else if valueString = "vertical" then ({ e with orientation := some .Vertical }, true)
      else (e, true)
    else (e, true)
  else (e, false)

/-- Source: `TryUpdateMouseEvents`. -/
def TryUpdateMouseEvents (node : ShadowNodeBase) (propertyName : String)
    (propertyValue : Dynamic) : ShadowNodeBase × Bool :=
  if propertyName = "onMouseEnter" then
    ({ node with m_onMouseEnter := !propertyValue.isNull && propertyValue.asBool }, true)
  else if propertyName = "onMouseLeave" then
    ({ node with m_onMouseLeave := !propertyValue.isNull && propertyValue.asBool }, true)
  else if propertyName = "onMouseMove" then
    ({ node with m_onMouseMove := !propertyValue.isNull && propertyValue.asBool }, true)
  else (node, false)

/-- A default element for concrete witnesses: nothing set, zero thicknesses. -/
def elem0 : Element :=
  { background := none
    foreground := none
    borderBrush := none
    borderThickness := ⟨0, 0, 0, 0⟩
    padding := ⟨0, 0, 0, 0⟩
    cornerRadius := ⟨0, 0, 0, 0⟩
    fontSize := none
    fontFamily := none
    fontWeight := none
    fontStyle := none
    textAlignment := none
    textTrimming := none
    textDecorations := none
    flowDirection := none
    characterSpacing := none
    orientation := none
    backgroundResourceBrush := none
    foregroundResourceBrush := none
    borderResourceBrush := none }

/-- A default shadow node for concrete witnesses: undefined arrays, flags
false. -/
def node0 : ShadowNodeBase :=
  { m_padding := EdgeValues.undef
    m_border := EdgeValues.undef
    m_cornerRadius := CornerValues.undef
    m_onMouseEnter := false
    m_onMouseLeave := false
    m_onMouseMove := false }

/-- The strings the fontWeight handler recognizes as weight tokens. -/
def fontWeightTokens : List String :=
  ["normal", "bold", "100", "200", "300", "400", "500", "600", "700", "800", "900"]

/-- C5: `TryUpdateFontProperties` with property name "fontWeight": the string
value "600" sets the element's FontWeight to weight 600; any string outside
the closed token set sets it to Normal; a null value clears FontWeight to the
toolkit default; in all cases the call returns true. -/
theorem C5_font_weight (e : Element) (s : String) (hs : s ∉ fontWeightTokens) :
    TryUpdateFontProperties e "fontWeight" (.str "600") =
        ({ e with fontWeight := some ⟨600⟩ }, true) ∧
      TryUpdateFontProperties e "fontWeight" (.str s) =
        ({ e with fontWeight := some FontWeights.Normal }, true) ∧
      TryUpdateFontProperties e "fontWeight" .null = ({ e with fontWeight := none }, true) := by
  simp only [fontWeightTokens, List.mem_cons, List.not_mem_nil, or_false, not_or] at hs
  refine ⟨?_, ?_, ?_⟩ <;>
    simp [TryUpdateFontProperties, Dynamic.isString, Dynamic.isNull, Dynamic.isNumber,
      Dynamic.getString, hs]

/-- Witness for C5 at the unrecognized token "purple" on the default element. -/
theorem C5_font_weight_witness :
    TryUpdateFontProperties elem0 "fontWeight" (.str "600") =
        ({ elem0 with fontWeight := some ⟨600⟩ }, true) ∧
      TryUpdateFontProperties elem0 "fontWeight" (.str "purple") =
        ({ elem0 with fontWeight := some FontWeights.Normal }, true) ∧
      TryUpdateFontProperties elem0 "fontWeight" .null = ({ elem0 with fontWeight := none }, true) :=
  C5_font_weight elem0 "purple" (by decide)

/-- C6: `TryUpdateBorderProperties` with "borderColor" and a null value: if the
element's current BorderThickness is not the uniform-0 thickness, the
process-wide default border brush is applied as BorderBrush; if it is
uniformly 0, the BorderBrush property is cleared; in both cases the border
resource brushes are refreshed with no brush and the call returns true. -/
theorem C6_border_color_null (node : ShadowNodeBase) (e : Element) :
    (e.borderThickness ≠ ThicknessFromUniformLength 0 →
        TryUpdateBorderProperties node e "borderColor" .null =
          (node, { e with borderBrush := some GetDefaultBorderBrush, borderResourceBrush := none }, true)) ∧
      (e.borderThickness = ThicknessFromUniformLength 0 →
        TryUpdateBorderProperties node e "borderColor" .null =
          (node, { e with borderBrush := none, borderResourceBrush := none }, true)) := by
  constructor <;> intro h <;>
    simp [TryUpdateBorderProperties, IsValidColorValue, Dynamic.isNumber, Dynamic.isNull, Dynamic.isString, Dynamic.asDouble, Dynamic.getString,
      UpdateControlBorderResourceBrushes, h]

/-- Witness for C6: both branches at concrete elements (nonzero and zero
border thickness). -/
theorem C6_border_color_null_witness :
    TryUpdateBorderProperties node0 { elem0 with borderThickness := ⟨1, 1, 1, 1⟩ }
        "borderColor" .null =
      (node0, { elem0 with borderThickness := ⟨1, 1, 1, 1⟩, borderBrush := some GetDefaultBorderBrush, borderResourceBrush := none }, true) ∧
      TryUpdateBorderProperties node0 elem0 "borderColor" .null =
        (node0, { elem0 with borderBrush := none, borderResourceBrush := none }, true) :=
  ⟨(C6_border_color_null node0 { elem0 with borderThickness := ⟨1, 1, 1, 1⟩ }).1 (by decide),
    (C6_border_color_null node0 elem0).2 (by decide)⟩

/-- C7: a recognized border-width name with numeric value 0 on an element with
no BorderBrush updates the edge slot and applies the resolved thickness but
does not apply the default border brush; the fallback fires exactly when the
new width is nonzero and no BorderBrush is set. -/
theorem C7_border_width_zero (node : ShadowNodeBase) (e : Element) (name : String)
    (edge : ShadowEdges) (q : ℚ) (b : Brush) (hname : edgeTypeMap name = some edge) :
    (e.borderBrush = none →
        TryUpdateBorderProperties node e name (.num 0) =
          ({ node with m_border := node.m_border.set edge 0 },
            { e with borderThickness := GetThickness (node.m_border.set edge 0) }, true)) ∧
      (q ≠ 0 → e.borderBrush = none →
        TryUpdateBorderProperties node e name (.num q) =
          ({ node with m_border := node.m_border.set edge q },
            { e with borderThickness := GetThickness (node.m_border.set edge q), borderBrush := some GetDefaultBorderBrush }, true)) ∧
      (e.borderBrush = some b →
        TryUpdateBorderProperties node e name (.num q) =
          ({ node with m_border := node.m_border.set edge q },
            { e with borderThickness := GetThickness (node.m_border.set edge q) }, true)) := by
  have hbc : name ≠ "borderColor" := by
    intro hcontra
    rw [hcontra] at hname
    simp [edgeTypeMap] at hname
  refine ⟨?_, ?_, ?_⟩
  · intro hb
    simp [TryUpdateBorderProperties, hbc, hname, SetBorderThickness, Dynamic.isNumber, Dynamic.isNull, Dynamic.isString, Dynamic.asDouble, Dynamic.getString, hb]
  · intro hq hb
    simp [TryUpdateBorderProperties, hbc, hname, SetBorderThickness, Dynamic.isNumber, Dynamic.isNull, Dynamic.isString, Dynamic.asDouble, Dynamic.getString, hb, hq]
  · intro hb
    simp [TryUpdateBorderProperties, hbc, hname, SetBorderThickness, Dynamic.isNumber, Dynamic.isNull, Dynamic.isString, Dynamic.asDouble, Dynamic.getString, hb]

/-- Witness for C7: width 0 and width 2 on a brushless element, and width 2 on
an element that already has a brush, under the name "borderWidth". -/
theorem C7_border_width_zero_witness :
    TryUpdateBorderProperties node0 elem0 "borderWidth" (.num 0) =
        ({ node0 with m_border := node0.m_border.set .AllEdges 0 },
          { elem0 with borderThickness := GetThickness (node0.m_border.set .AllEdges 0) },
          true) ∧
      TryUpdateBorderProperties node0 elem0 "borderWidth" (.num 2) =
        ({ node0 with m_border := node0.m_border.set .AllEdges 2 },
          { elem0 with borderThickness := GetThickness (node0.m_border.set .AllEdges 2), borderBrush := some GetDefaultBorderBrush }, true) ∧
      TryUpdateBorderProperties node0 { elem0 with borderBrush := some (BrushFrom (.num 1)) }
          "borderWidth" (.num 2) =
        ({ node0 with m_border := node0.m_border.set .AllEdges 2 },
          { elem0 with borderBrush := some (BrushFrom (.num 1)), borderThickness := GetThickness (node0.m_border.set .AllEdges 2) }, true) := by
  have h1 := C7_border_width_zero node0 elem0 "borderWidth" .AllEdges 2 (BrushFrom (.num 1))
    (by decide)
  have h2 := C7_border_width_zero node0 { elem0 with borderBrush := some (BrushFrom (.num 1)) }
    "borderWidth" .AllEdges 2 (BrushFrom (.num 1)) (by decide)
  exact ⟨h1.1 rfl, h1.2.1 (by norm_num) rfl, h2.2.2 rfl⟩

/-- Recognized names of the background group. -/
def backgroundColorNames : List String := ["backgroundColor"]

/-- Recognized names of the foreground group. -/
def foregroundNames : List String := ["color"]

/-- Recognized names of the border group. -/
def borderPropertyNames : List String :=
  ["borderColor", "borderLeftWidth", "borderTopWidth", "borderRightWidth",
   "borderBottomWidth", "borderStartWidth", "borderEndWidth", "borderWidth"]

/-- Recognized names of the padding group. -/
def paddingNames : List String :=
  ["paddingLeft", "paddingTop", "paddingRight", "paddingBottom", "paddingStart",
   "paddingEnd", "paddingHorizontal", "paddingVertical", "padding"]

/-- Recognized names of the corner-radius group. -/
def cornerRadiusNames : List String :=
  ["borderTopLeftRadius", "borderTopRightRadius", "borderTopStartRadius",
   "borderTopEndRadius", "borderBottomRightRadius", "borderBottomLeftRadius",
   "borderBottomStartRadius", "borderBottomEndRadius", "borderRadius"]

/-- Recognized names of the font group. -/
def fontNames : List String := ["fontSize", "fontFamily", "fontWeight", "fontStyle"]

/-- Recognized names of the text-alignment group. -/
def textAlignmentNames : List String := ["textAlign"]

/-- Recognized names of the text-trimming group. -/
def textTrimmingNames : List String := ["ellipsizeMode"]

/-- Recognized names of the text-decoration group. -/
def textDecorationNames : List String := ["textDecorationLine"]

/-- Recognized names of the flow-direction group. -/
def flowDirectionNames : List String := ["writingDirection", "direction"]

/-- Recognized names of the character-spacing group. -/
def characterSpacingNames : List String := ["letterSpacing", "characterSpacing"]

/-- Recognized names of the orientation group. -/
def orientationNames : List String := ["orientation"]

/-- Recognized names of the mouse-events group. -/
def mouseEventNames : List String := ["onMouseEnter", "onMouseLeave", "onMouseMove"]

/-- C8: for every dispatcher group and every property value, a property name
outside the group's recognized set makes the group's try-apply function return
false and leaves both the node state and the element state completely
unchanged. -/
theorem C8_unrecognized_no_effect (node : ShadowNodeBase) (e : Element) (name : String)
    (v : Dynamic) (sup : Bool) :
    (name ∉ backgroundColorNames → TryUpdateBackgroundBrush e name v = (e, false)) ∧
      (name ∉ foregroundNames → TryUpdateForeground e name v = (e, false)) ∧
      (name ∉ borderPropertyNames → TryUpdateBorderProperties node e name v = (node, e, false)) ∧
      (name ∉ paddingNames → TryUpdatePadding node e name v = (node, e, false)) ∧
      (name ∉ cornerRadiusNames → TryUpdateCornerRadiusOnNode node name v = (node, false)) ∧
      (name ∉ fontNames → TryUpdateFontProperties e name v = (e, false)) ∧
      (name ∉ textAlignmentNames → TryUpdateTextAlignment e name v = (e, false)) ∧
      (name ∉ textTrimmingNames → TryUpdateTextTrimming e name v = (e, false)) ∧
      (name ∉ textDecorationNames → TryUpdateTextDecorationLine sup e name v = (e, false)) ∧
      (name ∉ flowDirectionNames → TryUpdateFlowDirection e name v = (e, false)) ∧
      (name ∉ characterSpacingNames → TryUpdateCharacterSpacing e name v = (e, false)) ∧
      (name ∉ orientationNames → TryUpdateOrientation e name v = (e, false)) ∧
      (name ∉ mouseEventNames → TryUpdateMouseEvents node name v = (node, false)) := by
  refine ⟨?_, ?_, ?_, ?_, ?_, ?_, ?_, ?_, ?_, ?_, ?_, ?_, ?_⟩ <;> intro h <;>
    simp only [backgroundColorNames, foregroundNames, borderPropertyNames, paddingNames,
      cornerRadiusNames, fontNames, textAlignmentNames, textTrimmingNames, textDecorationNames,
      flowDirectionNames, characterSpacingNames, orientationNames, mouseEventNames,
      List.mem_cons, List.not_mem_nil, or_false, not_or] at h
  · simp [TryUpdateBackgroundBrush, h]
  · simp [TryUpdateForeground, h]
  · simp [TryUpdateBorderProperties, edgeTypeMap, h]
  · simp [TryUpdatePadding, h]
  · simp [TryUpdateCornerRadiusOnNode, h]
  · simp [TryUpdateFontProperties, h]
  · simp [TryUpdateTextAlignment, h]
  · simp [TryUpdateTextTrimming, h]
  · simp [TryUpdateTextDecorationLine, h]
  · simp [TryUpdateFlowDirection, h]
  · simp [TryUpdateCharacterSpacing, h]
  · simp [TryUpdateOrientation, h]
  · simp [TryUpdateMouseEvents, h]

/-- Witness for C8 at the unrecognized name "opacity" on the default node and
element. -/
theorem C8_unrecognized_no_effect_witness :
    TryUpdateBackgroundBrush elem0 "opacity" .null = (elem0, false) ∧
      TryUpdateForeground elem0 "opacity" .null = (elem0, false) ∧
      TryUpdateBorderProperties node0 elem0 "opacity" .null = (node0, elem0, false) ∧
      TryUpdatePadding node0 elem0 "opacity" .null = (node0, elem0, false) ∧
      TryUpdateCornerRadiusOnNode node0 "opacity" .null = (node0, false) ∧
      TryUpdateFontProperties elem0 "opacity" .null = (elem0, false) ∧
      TryUpdateTextAlignment elem0 "opacity" .null = (elem0, false) ∧
      TryUpdateTextTrimming elem0 "opacity" .null = (elem0, false) ∧
      TryUpdateTextDecorationLine true elem0 "opacity" .null = (elem0, false) ∧
      TryUpdateFlowDirection elem0 "opacity" .null = (elem0, false) ∧
      TryUpdateCharacterSpacing elem0 "opacity" .null = (elem0, false) ∧
      TryUpdateOrientation elem0 "opacity" .null = (elem0, false) ∧
      TryUpdateMouseEvents node0 "opacity" .null = (node0, false) := by
  have h := C8_unrecognized_no_effect node0 elem0 "opacity" .null true
  exact ⟨h.1 (by decide), h.2.1 (by decide), h.2.2.1 (by decide), h.2.2.2.1 (by decide),
    h.2.2.2.2.1 (by decide), h.2.2.2.2.2.1 (by decide), h.2.2.2.2.2.2.1 (by decide),
    h.2.2.2.2.2.2.2.1 (by decide), h.2.2.2.2.2.2.2.2.1 (by decide),
    h.2.2.2.2.2.2.2.2.2.1 (by decide), h.2.2.2.2.2.2.2.2.2.2.1 (by decide),
    h.2.2.2.2.2.2.2.2.2.2.2.1 (by decide), h.2.2.2.2.2.2.2.2.2.2.2.2 (by decide)⟩

/-- C9 counterexample: a null value is of non-string type, yet
`TryUpdateOrientation` does not leave the Orientation property untouched: it
clears a previously set Horizontal orientation (while returning true). -/
theorem C9_orientation_untouched_cex :
    (TryUpdateOrientation { elem0 with orientation := some Orientation.Horizontal }
          "orientation" .null).1.orientation = none ∧
      { elem0 with orientation := some Orientation.Horizontal }.orientation =
        some Orientation.Horizontal ∧
      (TryUpdateOrientation { elem0 with orientation := some Orientation.Horizontal }
          "orientation" .null).2 = true := by
  decide

/-- C9 (amended): `TryUpdateOrientation` with "orientation": a string value
other than "horizontal" or "vertical", or a numeric or boolean value, leaves
the element's Orientation property untouched; a null value clears it to the
toolkit default; the call returns true in every case. -/
theorem C9_orientation (e : Element) (s : String) (q : ℚ) (b : Bool)
    (hs1 : s ≠ "horizontal") (hs2 : s ≠ "vertical") :
    TryUpdateOrientation e "orientation" (.str s) = (e, true) ∧
      TryUpdateOrientation e "orientation" (.num q) = (e, true) ∧
      TryUpdateOrientation e "orientation" (.boolean b) = (e, true) ∧
      TryUpdateOrientation e "orientation" .null = ({ e with orientation := none }, true) := by
  simp [TryUpdateOrientation, Dynamic.isNumber, Dynamic.isNull, Dynamic.isString, Dynamic.asDouble, Dynamic.getString, hs1, hs2]

/-- Witness for the amended C9 at the unrecognized string "diagonal". -/
theorem C9_orientation_witness :
    TryUpdateOrientation elem0 "orientation" (.str "diagonal") = (elem0, true) ∧
      TryUpdateOrientation elem0 "orientation" (.num 1) = (elem0, true) ∧
      TryUpdateOrientation elem0 "orientation" (.boolean true) = (elem0, true) ∧
      TryUpdateOrientation elem0 "orientation" .null =
        ({ elem0 with orientation := none }, true) :=
  C9_orientation elem0 "diagonal" 1 true (by decide) (by decide)

/-- C10: for every recognized border-width property name, a null value is not
ignored: the edge's slot in the node's border array is set to 0, the array is
re-resolved, the resulting BorderThickness is applied to the element, and the
call returns true. -/
theorem C10_border_width_null (node : ShadowNodeBase) (e : Element) (name : String)
    (edge : ShadowEdges) (hname : edgeTypeMap name = some edge) :
    TryUpdateBorderProperties node e name .null =
      ({ node with m_border := node.m_border.set edge 0 },
        { e with borderThickness := GetThickness (node.m_border.set edge 0) }, true) := by
  have hbc : name ≠ "borderColor" := by
    intro hcontra
    rw [hcontra] at hname
    simp [edgeTypeMap] at hname
  simp [TryUpdateBorderProperties, hbc, hname, SetBorderThickness, Dynamic.isNumber, Dynamic.isNull, Dynamic.isString, Dynamic.asDouble, Dynamic.getString]

/-- Witness for C10 at "borderLeftWidth" on the default node and element. -/
theorem C10_border_width_null_witness :
    TryUpdateBorderProperties node0 elem0 "borderLeftWidth" .null =
      ({ node0 with m_border := node0.m_border.set .Left 0 },
        { elem0 with borderThickness := GetThickness (node0.m_border.set .Left 0) }, true) :=
  C10_border_width_null node0 elem0 "borderLeftWidth" .Left (by decide)

end ReactUwp
